import Mathlib

/-!
Verification of the camera capture and pixel post-processing core of the
Andriod-Camera-Test repository (src/src/components/CameraView.jsx together
with the near-duplicate variants in src/unnamed/part_000 and part_001).

The embedding below translates the source JavaScript into Lean:
JavaScript numbers become rationals; the `Uint8ClampedArray` pixel store
becomes an explicit clamp followed by round-to-nearest (ties to even),
mirroring the ECMAScript `ToUint8Clamp` conversion; a captured frame is a
list of RGBA pixels; the asynchronous capture orchestration becomes a pure
function from an environment (video readiness, canvas presence, torch
support, whether the frame grab throws) to a result record that traces the
torch toggles and the error reporting the source performs.
-/

namespace Camera

/-- One RGBA pixel as read from a canvas `ImageData` buffer.  Channels are
rationals; values taken from an actual buffer are integers in `[0, 255]`. -/
structure Pixel where
  r : ℚ
  g : ℚ
  b : ℚ
  a : ℚ
deriving DecidableEq, Repr

/-- The standard luminance formula `0.299*R + 0.587*G + 0.114*B` used both by
`isLowLight` (imageUtils line 348) and the grayscale branch of `applyFilters`
(line 393). -/
def luminance (r g b : ℚ) : ℚ :=
  299 / 1000 * r + 587 / 1000 * g + 114 / 1000 * b

/-- `clamp` from imageUtils lines 444-446: `Math.max(0, Math.min(255, value))`. -/
def clamp (value : ℚ) : ℚ :=
  max 0 (min 255 value)

/-- Round to the nearest integer, ties to even: the rounding the ECMAScript
`ToUint8Clamp` conversion applies when a number is stored into the
`Uint8ClampedArray` returned by `getImageData`. -/
def roundTiesEven (q : ℚ) : ℤ :=
  let n := ⌊q⌋
  let frac := q - n
  if frac < 1 / 2 then n
  else if 1 / 2 < frac then n + 1
  else if n % 2 = 0 then n else n + 1

/-- Storing a channel value into the `Uint8ClampedArray`: the source first
applies `clamp` (line 411-413), then the array conversion rounds ties-even. -/
def storeByte (v : ℚ) : ℚ :=
  ((roundTiesEven (clamp v) : ℤ) : ℚ)

/-- `FilterOptions` as destructured at imageUtils line 381:
`{ grayscale = false, contrast = 1.0, brightness = 0, sharpen = 0 }`. -/
structure FilterOptions where
  grayscale : Bool
  contrast : ℚ
  brightness : ℚ
  sharpen : ℚ
deriving DecidableEq, Repr

/-- The default option values applied when the caller omits fields
(imageUtils line 381). -/
def defaultOptions : FilterOptions :=
  { grayscale := false, contrast := 1, brightness := 0, sharpen := 0 }

/-- The contrast factor from imageUtils line 385:
`(259 * (contrast * 255 + 255)) / (255 * (259 - contrast * 255))`. -/
def contrastFactor (contrast : ℚ) : ℚ :=
  (259 * (contrast * 255 + 255)) / (255 * (259 - contrast * 255))

/-- The body of the per-pixel loop of `applyFilters` (imageUtils lines
387-414): optional grayscale, optional contrast remap (skipped when
`contrast === 1.0`), optional brightness offset, then clamp and store. -/
def transformPixel (o : FilterOptions) (p : Pixel) : Pixel :=
  let gray := luminance p.r p.g p.b
  let r1 := if o.grayscale then gray else p.r
  let g1 := if o.grayscale then gray else p.g
  let b1 := if o.grayscale then gray else p.b
  let f := contrastFactor o.contrast
  let r2 := if o.contrast ≠ 1 then f * (r1 - 128) + 128 else r1
  let g2 := if o.contrast ≠ 1 then f * (g1 - 128) + 128 else g1
  let b2 := if o.contrast ≠ 1 then f * (b1 - 128) + 128 else b1
  let r3 := if o.brightness ≠ 0 then r2 + o.brightness else r2
  let g3 := if o.brightness ≠ 0 then g2 + o.brightness else g2
  let b3 := if o.brightness ≠ 0 then b2 + o.brightness else b2
  { r := storeByte r3, g := storeByte g3, b := storeByte b3, a := p.a }

/-- The sharpening stage of `applyFilters` (imageUtils lines 421-436): the
`if (sharpen > 0)` branch contains only comments — the convolution is
deliberately skipped ("we'll skip the heavy JS convolution loop"), so both
branches leave the frame untouched. -/
def sharpenStage (o : FilterOptions) (frame : List Pixel) : List Pixel :=
  if 0 < o.sharpen then frame else frame

/-- `applyFilters` (imageUtils lines 363-442) restricted to its pixel
transform: the per-pixel loop runs only when
`grayscale || contrast !== 1.0 || brightness !== 0` (line 384), followed by
the (empty) sharpening stage.  The surrounding dataURL decode and JPEG
re-encode are platform primitives outside the pixel model. -/
def applyFilters (o : FilterOptions) (frame : List Pixel) : List Pixel :=
  let frame1 :=
    if o.grayscale = true ∨ o.contrast ≠ 1 ∨ o.brightness ≠ 0 then
      frame.map (transformPixel o)
    else frame
  sharpenStage o frame1

/-- Variant of the per-pixel body with the contrast stage removed, used to
state that `contrast = 1.0` behaves as if the stage were absent. -/
def transformPixelNoContrast (o : FilterOptions) (p : Pixel) : Pixel :=
  let gray := luminance p.r p.g p.b
  let r1 := if o.grayscale then gray else p.r
  let g1 := if o.grayscale then gray else p.g
  let b1 := if o.grayscale then gray else p.b
  let r3 := if o.brightness ≠ 0 then r1 + o.brightness else r1
  let g3 := if o.brightness ≠ 0 then g1 + o.brightness else g1
  let b3 := if o.brightness ≠ 0 then b1 + o.brightness else b1
  { r := storeByte r3, g := storeByte g3, b := storeByte b3, a := p.a }

/-- The pipeline with the contrast stage removed: the per-pixel loop runs when
`grayscale || brightness !== 0`, and no contrast remap is applied. -/
def applyFiltersNoContrast (o : FilterOptions) (frame : List Pixel) : List Pixel :=
  let frame1 :=
    if o.grayscale = true ∨ o.brightness ≠ 0 then
      frame.map (transformPixelNoContrast o)
    else frame
  sharpenStage o frame1

/-- The sharpening convolution as the SPEC describes it (center weight 5,
four-neighbor weight −1, corners 0, blended with the original by the given
weight), stated at a single pixel of an unbounded grayscale image.  The
source contains no such operation: the `if (sharpen > 0)` branch of
`applyFilters` is empty.  This definition exists only to compare the spec
sentence against the code. -/
def sharpenSpecPixel (weight : ℚ) (img : ℤ → ℤ → ℚ) (x y : ℤ) : ℚ :=
  let conv := 5 * img x y - img (x - 1) y - img (x + 1) y
    - img x (y - 1) - img x (y + 1)
  (1 - weight) * img x y + weight * conv

/-! ## Luminance sampler (`isLowLight`, imageUtils lines 324-354) -/

/-- A live video frame source.  `ready` records whether the element has valid
dimensions and decodable frames; `window` is the 50×50 pixel sample that the
off-screen `drawImage`/`getImageData` of `isLowLight` extracts from the frame
center when the source is ready. -/
structure VideoSource where
  ready : Bool
  window : List Pixel

/-- The pixel window `isLowLight` actually reads.  When the source is not
ready (no valid dimensions), `drawImage` draws nothing, so `getImageData`
returns the freshly created canvas content: 50×50 transparent-black pixels. -/
def sampleWindow (v : VideoSource) : List Pixel :=
  if v.ready then v.window else List.replicate 2500 ⟨0, 0, 0, 0⟩

/-- Flattening a pixel list into the RGBA byte stream of
`imageData.data`, over which the source loop iterates with stride 4. -/
def flatData : List Pixel → List ℚ
  | [] => []
  | p :: rest => p.r :: p.g :: p.b :: p.a :: flatData rest

/-- The accumulation loop of `isLowLight` (lines 343-349):
`totalBrightness += 0.299*r + 0.587*g + 0.114*b` for each stride-4 group. -/
def totalBrightness : List ℚ → ℚ
  | r :: g :: b :: _ :: rest => luminance r g b + totalBrightness rest
  | _ => 0

/-- Lines 351-353 of imageUtils: the mean brightness
`totalBrightness / (data.length / 4)` compared against the fixed threshold 80. -/
def isLowLightData (data : List ℚ) : Bool :=
  decide (totalBrightness data / ((data.length : ℚ) / 4) < 80)

/-- `isLowLight` (imageUtils lines 324-354): `false` when the video element is
absent, otherwise the mean luminance of the sampled window compared to 80. -/
def isLowLight : Option VideoSource → Bool
  | none => false
  | some v => isLowLightData (flatData (sampleWindow v))

/-- The arithmetic mean of per-pixel luminance over a window, written the way
the spec describes the brightness sample. -/
def specBrightness (w : List Pixel) : ℚ :=
  ((w.map fun p => luminance p.r p.g p.b).sum) / (w.length : ℚ)

/-! ## Capture orchestration (`captureStrategy`, CameraView lines 187-245)

All three variants of `captureStrategy` share the structure modelled here:
an early `return` when `videoRef.current` or `canvasRef.current` is absent,
then inside a `try` block: low-light sampling, conditional torch-on, settle
delays, the frame grab (`drawImage`), conditional torch-off, and the filter
pipeline; a `catch` that only calls `console.error`, and a `finally` that
only resets the `processing` flag. -/

/-- Environment of one `captureStrategy` invocation: the video ref (absent or
a `VideoSource`), the canvas ref, whether React state holds a stream, whether
the track advertised torch support, and whether the frame-grab step throws. -/
structure CaptureEnv where
  video : Option VideoSource
  hasCanvas : Bool
  hasStream : Bool
  torchSupported : Bool
  grabThrows : Bool

/-- Observable outcome of one `captureStrategy` invocation: the torch state
when the function returns (initially off), the trace of torch toggles that
reached `applyConstraints`, whether any error state was surfaced to the caller
(`setError`), whether the `catch` block logged to the console, whether a
captured image was produced, and whether the guard at the top returned early. -/
structure CaptureResult where
  torch : Bool
  torchEvents : List Bool
  errorReported : Bool
  consoleLogged : Bool
  capturedSet : Bool
  earlyReturn : Bool
deriving DecidableEq, Repr

/-- `setTorch` (CameraView lines 174-185): the constraint is applied only when
`stream && torchSupported`; the device call is modelled as succeeding. -/
def setTorchEffect (env : CaptureEnv) (st : Bool × List Bool) (turnOn : Bool) :
    Bool × List Bool :=
  if env.hasStream && env.torchSupported then (turnOn, st.2 ++ [turnOn]) else st

/-- `captureStrategy` (CameraView lines 187-245).  The guard at line 188
returns silently; the torch-off call at lines 223-225 sits inside the `try`
after `drawImage`, so a throwing grab skips it and lands in the `catch`
(line 241, `console.error` only); the `finally` resets only `processing`. -/
def captureStrategy (env : CaptureEnv) : CaptureResult :=
  if env.video.isNone || !env.hasCanvas then
    { torch := false, torchEvents := [], errorReported := false,
      consoleLogged := false, capturedSet := false, earlyReturn := true }
  else
    let lowLight := isLowLight env.video
    let s1 := if lowLight && env.torchSupported then
        setTorchEffect env (false, []) true
      else (false, [])
    if env.grabThrows then
      { torch := s1.1, torchEvents := s1.2, errorReported := false,
        consoleLogged := true, capturedSet := false, earlyReturn := false }
    else
      let s2 := if lowLight && env.torchSupported then
          setTorchEffect env s1 false
        else s1
      { torch := s2.1, torchEvents := s2.2, errorReported := false,
        consoleLogged := false, capturedSet := true, earlyReturn := false }

/-! ## Helper lemmas -/

/-- The luminance weights sum to exactly 1, so a gray pixel keeps its value. -/
lemma luminance_self (x : ℚ) : luminance x x x = x := by
  unfold luminance; ring

lemma clamp_nonneg (v : ℚ) : 0 ≤ clamp v := le_max_left 0 _

lemma clamp_le (v : ℚ) : clamp v ≤ 255 := by
  unfold clamp
  exact max_le (by norm_num) (min_le_left _ _)

lemma clamp_eq_self {v : ℚ} (h0 : 0 ≤ v) (h1 : v ≤ 255) : clamp v = v := by
  unfold clamp
  rw [min_eq_right h1, max_eq_right h0]

lemma roundTiesEven_intCast (z : ℤ) : roundTiesEven (z : ℚ) = z := by
  unfold roundTiesEven
  rw [Int.floor_intCast]
  norm_num

lemma roundTiesEven_nonneg {q : ℚ} (h : 0 ≤ q) : 0 ≤ roundTiesEven q := by
  simp only [roundTiesEven]
  have hf : 0 ≤ ⌊q⌋ := Int.floor_nonneg.mpr h
  split_ifs <;> omega

lemma roundTiesEven_le {q : ℚ} (h : q ≤ 255) : roundTiesEven q ≤ 255 := by
  simp only [roundTiesEven]
  have hfl : (⌊q⌋ : ℚ) ≤ q := Int.floor_le q
  have h255 : ⌊q⌋ ≤ 255 := by
    have hc : (⌊q⌋ : ℚ) ≤ (255 : ℚ) := hfl.trans h
    exact_mod_cast hc
  split_ifs with h1 h2 h3
  · exact h255
  · have hfrac : (1 : ℚ) / 2 < q - ⌊q⌋ := h2
    have hlt : (⌊q⌋ : ℚ) < 255 := by linarith
    have hi : ⌊q⌋ < (255 : ℤ) := by exact_mod_cast hlt
    omega
  · exact h255
  · have heq : q - ⌊q⌋ = 1 / 2 := le_antisymm (not_lt.mp h2) (not_lt.mp h1)
    have hlt : (⌊q⌋ : ℚ) < 255 := by linarith
    have hi : ⌊q⌋ < (255 : ℤ) := by exact_mod_cast hlt
    omega

lemma storeByte_nonneg (v : ℚ) : 0 ≤ storeByte v := by
  unfold storeByte
  exact_mod_cast roundTiesEven_nonneg (clamp_nonneg v)

lemma storeByte_le (v : ℚ) : storeByte v ≤ 255 := by
  unfold storeByte
  exact_mod_cast roundTiesEven_le (clamp_le v)

lemma clamp_storeByte (v : ℚ) : clamp (storeByte v) = storeByte v :=
  clamp_eq_self (storeByte_nonneg v) (storeByte_le v)

/-- Storing an already-stored byte value changes nothing: the value is an
integer in `[0, 255]`, so clamping and rounding are both the identity. -/
lemma storeByte_storeByte (v : ℚ) : storeByte (storeByte v) = storeByte v := by
  conv_lhs => rw [storeByte]
  rw [clamp_storeByte, storeByte, roundTiesEven_intCast]

lemma totalBrightness_flatData (w : List Pixel) :
    totalBrightness (flatData w) = (w.map fun p => luminance p.r p.g p.b).sum := by
  induction w with
  | nil => simp [flatData, totalBrightness]
  | cons p rest ih => simp [flatData, totalBrightness, ih]

lemma flatData_length (w : List Pixel) : (flatData w).length = 4 * w.length := by
  induction w with
  | nil => simp [flatData]
  | cons p rest ih => simp [flatData, ih]; ring

/-- On a ready source, `isLowLight` compares exactly the arithmetic mean of
per-pixel luminance of the sampled window against the threshold 80. -/
lemma isLowLight_ready (v : VideoSource) (h : v.ready = true) :
    isLowLight (some v) = decide (specBrightness v.window < 80) := by
  simp only [isLowLight, isLowLightData, sampleWindow, specBrightness, h, if_true]
  rw [totalBrightness_flatData, flatData_length]
  have hden : ((4 * v.window.length : ℕ) : ℚ) / 4 = (v.window.length : ℚ) := by
    push_cast; ring
  rw [hden]

/-- A window of `n` copies of the same pixel has that pixel's luminance as
its mean brightness. -/
lemma specBrightness_replicate (n : ℕ) (hn : (n : ℚ) ≠ 0) (p : Pixel) :
    specBrightness (List.replicate n p) = luminance p.r p.g p.b := by
  unfold specBrightness
  rw [List.map_replicate, List.sum_replicate, List.length_replicate, nsmul_eq_mul]
  exact mul_div_cancel_left₀ _ hn

/-- A source without valid dimensions samples the blank (transparent black)
canvas, so its mean brightness is 0 and it is classified low-light. -/
lemma isLowLight_notReady (v : VideoSource) (h : v.ready = false) :
    isLowLight (some v) = true := by
  simp only [isLowLight, isLowLightData, sampleWindow, h, Bool.false_eq_true, if_false]
  rw [totalBrightness_flatData]
  simp only [List.map_replicate, List.sum_replicate, decide_eq_true_eq]
  norm_num [luminance]

/-- An all-black 50×50 sample is classified low-light. -/
lemma isLowLight_black :
    isLowLight (some ⟨true, List.replicate 2500 ⟨0, 0, 0, 255⟩⟩) = true := by
  rw [isLowLight_ready _ rfl]
  rw [specBrightness_replicate 2500 (by norm_num) _]
  simp only [decide_eq_true_eq]
  norm_num [luminance]

/-- An all-white 50×50 sample is classified well-lit. -/
lemma isLowLight_white :
    isLowLight (some ⟨true, List.replicate 2500 ⟨255, 255, 255, 255⟩⟩) = false := by
  rw [isLowLight_ready _ rfl]
  rw [specBrightness_replicate 2500 (by norm_num) _]
  simp only [decide_eq_false_iff_not]
  norm_num [luminance]

/-- A pixel already produced by the grayscale store is a fixed point of the
grayscale transform: its channels are equal integers in `[0, 255]`. -/
lemma transformPixel_gray_idem (p : Pixel) :
    transformPixel ⟨true, 1, 0, 0⟩ (transformPixel ⟨true, 1, 0, 0⟩ p) =
      transformPixel ⟨true, 1, 0, 0⟩ p := by
  simp [transformPixel, luminance_self, storeByte_storeByte]

/-! ## Claims -/

/-- C10 (confirmed): with the neutral options `{grayscale:false, contrast:1.0,
brightness:0, sharpen:0}` — equivalently the defaults applied when all options
are absent — `applyFilters` leaves every pixel byte of the frame unchanged:
the per-pixel loop guard is false and the sharpen branch is empty. -/
theorem C10_neutral_options_identity :
    (∀ frame : List Pixel,
      applyFilters { grayscale := false, contrast := 1, brightness := 0, sharpen := 0 }
        frame = frame) ∧
    (∀ frame : List Pixel, applyFilters defaultOptions frame = frame) := by
  constructor <;> intro frame <;> simp [applyFilters, sharpenStage, defaultOptions]

/-- C7 (confirmed): `contrast = 1.0` is a no-op — the output of `applyFilters`
equals the output of the pipeline with the contrast stage removed, because the
source skips the remap when `contrast === 1.0`. -/
theorem C7_contrast_one_noop (g : Bool) (b s : ℚ) (frame : List Pixel) :
    applyFilters { grayscale := g, contrast := 1, brightness := b, sharpen := s }
      frame =
    applyFiltersNoContrast
      { grayscale := g, contrast := 1, brightness := b, sharpen := s } frame := by
  have h : transformPixel ⟨g, 1, b, s⟩ = transformPixelNoContrast ⟨g, 1, b, s⟩ := by
    funext p
    simp [transformPixel, transformPixelNoContrast]
  simp [applyFilters, applyFiltersNoContrast, sharpenStage, h]

/-- C3 (corrected, counterexample): on a concrete frame the output of
`applyFilters` with sharpen weight 0.7 is identical to the output with
sharpen 0, while the spec's 3×3 convolution would change the center pixel of
a concrete image — the code applies no convolution. -/
theorem C3_sharpen_counterexample :
    applyFilters { grayscale := false, contrast := 1, brightness := 0, sharpen := 7 / 10 }
      [⟨100, 100, 100, 255⟩] =
    applyFilters { grayscale := false, contrast := 1, brightness := 0, sharpen := 0 }
      [⟨100, 100, 100, 255⟩] ∧
    sharpenSpecPixel (7 / 10) (fun x y => if x = 0 ∧ y = 0 then 100 else 0) 0 0 ≠
      (fun x y => if x = 0 ∧ y = 0 then (100 : ℚ) else 0) 0 0 := by
  constructor
  · simp [applyFilters, sharpenStage]
  · norm_num [sharpenSpecPixel]

/-- C3 (corrected, amended): the sharpen weight has no effect at all — for
every frame and every option record, the output with any sharpen weight equals
the output with sharpen 0, since the `if (sharpen > 0)` branch of the source
contains no pixel operation; with weight 0 it is likewise skipped. -/
theorem C3_sharpen_no_effect (o : FilterOptions) (s : ℚ) (frame : List Pixel) :
    applyFilters { o with sharpen := s } frame =
    applyFilters { o with sharpen := 0 } frame := by
  have h : transformPixel { o with sharpen := s } =
      transformPixel { o with sharpen := 0 } := by
    funext p
    simp [transformPixel]
  simp [applyFilters, sharpenStage, h]

/-- C8 (confirmed): `applyFilters` is idempotent under `contrast = 1.0`,
`brightness = 0`, `sharpen = 0` and either grayscale setting: applying it
twice yields the same pixels as applying it once. -/
theorem C8_idempotent (g : Bool) (frame : List Pixel) :
    applyFilters { grayscale := g, contrast := 1, brightness := 0, sharpen := 0 }
      (applyFilters { grayscale := g, contrast := 1, brightness := 0, sharpen := 0 }
        frame) =
    applyFilters { grayscale := g, contrast := 1, brightness := 0, sharpen := 0 }
      frame := by
  cases g with
  | false => simp [applyFilters, sharpenStage]
  | true =>
    simp only [applyFilters, sharpenStage]
    simp only [ne_eq, not_true_eq_false, or_false, false_or, if_true, ite_self]
    have hcomp : (fun p => transformPixel ⟨true, 1, 0, 0⟩
        (transformPixel ⟨true, 1, 0, 0⟩ p)) = transformPixel ⟨true, 1, 0, 0⟩ :=
      funext transformPixel_gray_idem
    simp [List.map_map, Function.comp_def, hcomp]

/-- C2 (corrected, counterexample): with `contrast = 2.0` and input channel
255, `applyFilters` produces 0, not 255 — the factor
`259*(2*255+255)/(255*(259-2*255))` is negative, so 255 maps to
`-66551/251 ≈ -265` and is clamped to the bottom of the range. -/
theorem C2_contrast2_counterexample :
    applyFilters { grayscale := false, contrast := 2, brightness := 0, sharpen := 0 }
      [⟨255, 255, 255, 255⟩] = [⟨0, 0, 0, 255⟩] ∧
    (0 : ℚ) ≠ 255 := by
  constructor
  · norm_num [applyFilters, transformPixel, sharpenStage, contrastFactor,
      luminance, storeByte, clamp, roundTiesEven, min_def, max_def]
  · norm_num

/-- C2 (corrected, amended): with `contrast = 2.0` the contrast factor is the
negative value `-777/251`, so an input channel of 255 is remapped below zero
and clamped to exactly 0. -/
theorem C2_contrast2_clamps_to_zero :
    contrastFactor 2 = -777 / 251 ∧
    contrastFactor 2 * (255 - 128) + 128 = -66551 / 251 ∧
    applyFilters { grayscale := false, contrast := 2, brightness := 0, sharpen := 0 }
      [⟨255, 255, 255, 255⟩] = [⟨0, 0, 0, 255⟩] := by
  refine ⟨by norm_num [contrastFactor], by norm_num [contrastFactor], ?_⟩
  norm_num [applyFilters, transformPixel, sharpenStage, contrastFactor,
    luminance, storeByte, clamp, roundTiesEven, min_def, max_def]

/-- C5 (confirmed): on a ready source, `isLowLight` classifies the scene as
low-light exactly when the arithmetic mean of the per-pixel luminance
`0.299R+0.587G+0.114B` over the 50×50 sample window is below 80; an all-black
window has mean 0 and is low-light, an all-white window has mean 255 and is
well-lit. -/
theorem C5_brightness_classification :
    (∀ w : List Pixel,
      isLowLight (some ⟨true, w⟩) = decide (specBrightness w < 80)) ∧
    specBrightness (List.replicate 2500 ⟨0, 0, 0, 255⟩) = 0 ∧
    isLowLight (some ⟨true, List.replicate 2500 ⟨0, 0, 0, 255⟩⟩) = true ∧
    specBrightness (List.replicate 2500 ⟨255, 255, 255, 255⟩) = 255 ∧
    isLowLight (some ⟨true, List.replicate 2500 ⟨255, 255, 255, 255⟩⟩) = false := by
  refine ⟨fun w => isLowLight_ready ⟨true, w⟩ rfl, ?_, isLowLight_black, ?_,
    isLowLight_white⟩
  · rw [specBrightness_replicate 2500 (by norm_num) _]
    norm_num [luminance]
  · rw [specBrightness_replicate 2500 (by norm_num) _]
    norm_num [luminance]

/-- C6 (corrected, counterexample): grayscale output channels are the
luminance rounded to the nearest 8-bit value, not the exact luminance — the
pixel `(1,0,0)` has luminance `0.299`, but the stored channels are 0. -/
theorem C6_grayscale_counterexample :
    applyFilters { grayscale := true, contrast := 1, brightness := 0, sharpen := 0 }
      [⟨1, 0, 0, 7⟩] = [⟨0, 0, 0, 7⟩] ∧
    luminance 1 0 0 ≠ 0 := by
  constructor
  · norm_num [applyFilters, transformPixel, sharpenStage, luminance, storeByte,
      clamp, roundTiesEven, min_def, max_def]
  · norm_num [luminance]

/-- C6 (corrected, amended): with `{grayscale:true, contrast:1.0,
brightness:0, sharpen:0}` every output pixel has R = G = B equal to the
luminance `0.299R+0.587G+0.114B` quantized by the byte store (clamp to
`[0,255]` then round to nearest, ties to even), and alpha unchanged. -/
theorem C6_grayscale_channels (frame : List Pixel) :
    applyFilters { grayscale := true, contrast := 1, brightness := 0, sharpen := 0 }
      frame =
    frame.map fun p =>
      { r := storeByte (luminance p.r p.g p.b),
        g := storeByte (luminance p.r p.g p.b),
        b := storeByte (luminance p.r p.g p.b), a := p.a } := by
  simp [applyFilters, sharpenStage, transformPixel]

/-- C1 (corrected, counterexample): with a low-light scene (all-black sample),
torch supported, and a frame grab that throws, `captureStrategy` returns with
the torch still on — the only torch event is the enable, because the disable
call sits after `drawImage` inside the `try` and the `finally` only resets the
processing flag. -/
theorem C1_torch_left_on_counterexample :
    (captureStrategy
      { video := some ⟨true, List.replicate 2500 ⟨0, 0, 0, 255⟩⟩,
        hasCanvas := true, hasStream := true, torchSupported := true,
        grabThrows := true }).torch = true ∧
    (captureStrategy
      { video := some ⟨true, List.replicate 2500 ⟨0, 0, 0, 255⟩⟩,
        hasCanvas := true, hasStream := true, torchSupported := true,
        grabThrows := true }).torchEvents = [true] := by
  have h := isLowLight_black
  generalize hw : List.replicate 2500 (⟨0, 0, 0, 255⟩ : Pixel) = w at h ⊢
  constructor <;> simp [captureStrategy, setTorchEffect, h]

/-- C1 (corrected, amended): whenever the frame grab does not throw,
`captureStrategy` returns with the torch off — in particular a torch enabled
for a low-light capture is disabled again on every non-throwing run; on a
throwing grab the exception is only logged and the torch stays on. -/
theorem C1_torch_off_without_throw (env : CaptureEnv)
    (h : env.grabThrows = false) : (captureStrategy env).torch = false := by
  obtain ⟨video, hc, hs, ts, gt⟩ := env
  cases h
  cases video with
  | none => simp [captureStrategy]
  | some v =>
    cases hL : isLowLight (some v) <;> cases hc <;> cases hs <;> cases ts <;>
      simp [captureStrategy, setTorchEffect, hL]

/-- C1 witness: the amended theorem applied at a concrete non-throwing
low-light environment. -/
theorem C1_torch_off_witness :
    (captureStrategy
      { video := some ⟨true, List.replicate 2500 ⟨0, 0, 0, 255⟩⟩,
        hasCanvas := true, hasStream := true, torchSupported := true,
        grabThrows := false }).torch = false :=
  C1_torch_off_without_throw _ rfl

/-- C4 (corrected, counterexample): invoked with an absent video element,
`captureStrategy` returns silently — no error is surfaced, nothing is even
logged, and no image is produced; the guard at line 188 is a bare `return`. -/
theorem C4_silent_return_counterexample :
    (captureStrategy
      { video := none, hasCanvas := true, hasStream := true,
        torchSupported := true, grabThrows := false }).errorReported = false ∧
    (captureStrategy
      { video := none, hasCanvas := true, hasStream := true,
        torchSupported := true, grabThrows := false }).consoleLogged = false ∧
    (captureStrategy
      { video := none, hasCanvas := true, hasStream := true,
        torchSupported := true, grabThrows := false }).earlyReturn = true := by
  refine ⟨?_, ?_, ?_⟩ <;> simp [captureStrategy]

/-- C4 (corrected, amended): with no usable frame source or pixel buffer
(absent video element or canvas), `captureStrategy` returns early without
reporting any error to the caller, without logging, without toggling the
torch and without producing an image. -/
theorem C4_missing_source_early_return (env : CaptureEnv)
    (h : env.video = none ∨ env.hasCanvas = false) :
    captureStrategy env =
      { torch := false, torchEvents := [], errorReported := false,
        consoleLogged := false, capturedSet := false, earlyReturn := true } := by
  rcases h with h | h <;> simp [captureStrategy, h]

/-- C4 witness: the amended theorem applied at a concrete environment with an
absent video element. -/
theorem C4_missing_source_witness :
    captureStrategy
      { video := none, hasCanvas := false, hasStream := false,
        torchSupported := false, grabThrows := false } =
      { torch := false, torchEvents := [], errorReported := false,
        consoleLogged := false, capturedSet := false, earlyReturn := true } :=
  C4_missing_source_early_return _ (Or.inl rfl)

/-- C9 (corrected, counterexample): for a present but not-ready frame source
(no valid dimensions), `isLowLight` samples the blank canvas and returns
`true` — a boolean, not an 'unknown' sentinel — and `captureStrategy` with
torch support then engages the torch, toggling it on and off. -/
theorem C9_notReady_engages_torch_counterexample :
    isLowLight (some ⟨false, []⟩) = true ∧
    (captureStrategy
      { video := some ⟨false, []⟩, hasCanvas := true, hasStream := true,
        torchSupported := true, grabThrows := false }).torchEvents =
      [true, false] := by
  have h := isLowLight_notReady ⟨false, []⟩ rfl
  constructor
  · exact h
  · simp [captureStrategy, setTorchEffect, h]

/-- C9 (corrected, amended): only an absent video element yields the
adequate-light answer `false` (and an absent source never reaches a torch
toggle); a present source without valid dimensions samples a blank canvas,
is classified low-light, and does trigger illumination compensation. -/
theorem C9_unknown_source_behavior :
    isLowLight none = false ∧
    (∀ v : VideoSource, v.ready = false → isLowLight (some v) = true) ∧
    (∀ env : CaptureEnv, env.video = none →
      (captureStrategy env).torchEvents = []) := by
  refine ⟨rfl, fun v hv => isLowLight_notReady v hv, fun env henv => ?_⟩
  simp [captureStrategy, henv]

/-- C9 witness: the amended theorem applied at a concrete not-ready source and
a concrete environment with an absent video element. -/
theorem C9_unknown_source_witness :
    isLowLight (some ⟨false, [⟨9, 9, 9, 9⟩]⟩) = true ∧
    (captureStrategy
      { video := none, hasCanvas := true, hasStream := true,
        torchSupported := true, grabThrows := false }).torchEvents = [] :=
  ⟨C9_unknown_source_behavior.2.1 _ rfl, C9_unknown_source_behavior.2.2 _ rfl⟩

end Camera
